import Mathlib

/-!
Shallow embedding of the parameter-morphospace engine of
`dmarsters/wine_tasting_mcp` (`src/server.py`, Phase 2.6/2.7 layer), together
with proofs settling the frozen claims about it.

Modelling conventions:
* Python float arithmetic on the engine's decimal data is modelled exactly:
  rationals (`ℚ`) where the code computes with field operations on decimal
  literals, reals (`ℝ`) where `math.sin` / `math.sqrt` / `math.pi` enter.
  The claims proved here are exact-arithmetic identities (endpoint
  reproduction, bounds, counts, orderings) that coincide in both semantics.
* A Python dict keyed by the five axis names is an association list
  `List (Axis × ℚ)`; a failed key lookup (Python `KeyError`) is `Option.none`.
* A Python function that may raise is `Except String _` (the raised message)
  or, for the tool entry points, `ToolResult` below, whose `exn` constructor
  stands for an exception escaping the tool unhandled, `err` for a structured
  error object returned as an ordinary value, and `ok` for the success payload.
* `round(x, d)` is `roundTo d`; the tie-breaking of Python's float `round`
  (half-to-even on the binary value) and of `Mathlib.round` differ only on
  exact half-way values, which none of the claims touch.
-/

namespace WineMCP

set_option maxHeartbeats 1600000

/-- The five fixed axes of the morphospace (`WINE_PARAMETER_NAMES`),
declared in source order. -/
inductive Axis : Type
  | structural_tension
  | color_depth
  | aromatic_complexity
  | textural_weight
  | temporal_maturity
deriving DecidableEq, Fintype

/-- `WINE_PARAMETER_NAMES`: the fixed declaration order of the axes. -/
def WINE_PARAMETER_NAMES : List Axis :=
  [.structural_tension, .color_depth, .aromatic_complexity, .textural_weight,
   .temporal_maturity]

/-- Position of an axis in the fixed declaration order. -/
def axisIdx : Axis → ℕ
  | .structural_tension => 0
  | .color_depth => 1
  | .aromatic_complexity => 2
  | .textural_weight => 3
  | .temporal_maturity => 4

/-- A wine-state dictionary as the Python code passes it around: an
association list from axes to numeric values. -/
def WDict : Type := List (Axis × ℚ)

/-- Dict lookup `d[p]` as an `Option` (`none` = Python `KeyError`). -/
def dget? (d : WDict) (p : Axis) : Option ℚ :=
  (List.find? (fun e => e.1 == p) d).map (fun e => e.2)

/-- The dict `{p: s(p) for p in WINE_PARAMETER_NAMES}` of a total assignment. -/
def dictOf (s : Axis → ℚ) : WDict :=
  WINE_PARAMETER_NAMES.map (fun p => (p, s p))

/-- Python `round(q, d)` on exact rationals. -/
def roundTo (d : ℕ) (q : ℚ) : ℚ := (round (q * 10 ^ d) : ℤ) / 10 ^ d

/-- Python `round(x, d)` on reals. -/
noncomputable def roundToR (d : ℕ) (x : ℝ) : ℝ := ((round (x * 10 ^ d) : ℤ) : ℝ) / 10 ^ d

/-- The registry `WINE_TASTING_COORDS`: the seven canonical wine states. -/
inductive CanonicalState : Type
  | young_burgundy
  | aged_barolo
  | napa_cabernet
  | mosel_riesling
  | rhone_syrah
  | champagne_brut
  | sauternes
deriving DecidableEq, Fintype

/-- The id string under which each canonical state is registered. -/
def CanonicalState.name : CanonicalState → String
  | .young_burgundy => "young_burgundy"
  | .aged_barolo => "aged_barolo"
  | .napa_cabernet => "napa_cabernet"
  | .mosel_riesling => "mosel_riesling"
  | .rhone_syrah => "rhone_syrah"
  | .champagne_brut => "champagne_brut"
  | .sauternes => "sauternes"

/-- `WINE_TASTING_COORDS[id][axis]`, transcribed from the source literals. -/
def WINE_TASTING_COORDS : CanonicalState → Axis → ℚ
  | .young_burgundy, .structural_tension => 0.70
  | .young_burgundy, .color_depth => 0.45
  | .young_burgundy, .aromatic_complexity => 0.40
  | .young_burgundy, .textural_weight => 0.40
  | .young_burgundy, .temporal_maturity => 0.15
  | .aged_barolo, .structural_tension => 0.85
  | .aged_barolo, .color_depth => 0.55
  | .aged_barolo, .aromatic_complexity => 0.95
  | .aged_barolo, .textural_weight => 0.65
  | .aged_barolo, .temporal_maturity => 0.90
  | .napa_cabernet, .structural_tension => 0.60
  | .napa_cabernet, .color_depth => 0.95
  | .napa_cabernet, .aromatic_complexity => 0.50
  | .napa_cabernet, .textural_weight => 0.95
  | .napa_cabernet, .temporal_maturity => 0.20
  | .mosel_riesling, .structural_tension => 0.90
  | .mosel_riesling, .color_depth => 0.15
  | .mosel_riesling, .aromatic_complexity => 0.55
  | .mosel_riesling, .textural_weight => 0.15
  | .mosel_riesling, .temporal_maturity => 0.10
  | .rhone_syrah, .structural_tension => 0.55
  | .rhone_syrah, .color_depth => 0.90
  | .rhone_syrah, .aromatic_complexity => 0.65
  | .rhone_syrah, .textural_weight => 0.85
  | .rhone_syrah, .temporal_maturity => 0.35
  | .champagne_brut, .structural_tension => 0.80
  | .champagne_brut, .color_depth => 0.20
  | .champagne_brut, .aromatic_complexity => 0.60
  | .champagne_brut, .textural_weight => 0.25
  | .champagne_brut, .temporal_maturity => 0.30
  | .sauternes, .structural_tension => 0.35
  | .sauternes, .color_depth => 0.75
  | .sauternes, .aromatic_complexity => 0.90
  | .sauternes, .textural_weight => 0.80
  | .sauternes, .temporal_maturity => 0.70

/-- The registry `WINE_VISUAL_TYPES`: the seven labelled visual archetypes. -/
inductive WineVisualType : Type
  | burgundian_silk
  | barolo_patina
  | napa_monument
  | riesling_crystal
  | rhone_wildfire
  | champagne_effervescence
  | sauternes_gold
deriving DecidableEq, Fintype

/-- The id string under which each visual type is registered. -/
def WineVisualType.id : WineVisualType → String
  | .burgundian_silk => "burgundian_silk"
  | .barolo_patina => "barolo_patina"
  | .napa_monument => "napa_monument"
  | .riesling_crystal => "riesling_crystal"
  | .rhone_wildfire => "rhone_wildfire"
  | .champagne_effervescence => "champagne_effervescence"
  | .sauternes_gold => "sauternes_gold"

/-- `WINE_VISUAL_TYPES[id]["coords"][axis]`, transcribed from the source. -/
def WineVisualType.coords : WineVisualType → Axis → ℚ
  | .burgundian_silk, .structural_tension => 0.70
  | .burgundian_silk, .color_depth => 0.45
  | .burgundian_silk, .aromatic_complexity => 0.40
  | .burgundian_silk, .textural_weight => 0.40
  | .burgundian_silk, .temporal_maturity => 0.15
  | .barolo_patina, .structural_tension => 0.85
  | .barolo_patina, .color_depth => 0.55
  | .barolo_patina, .aromatic_complexity => 0.95
  | .barolo_patina, .textural_weight => 0.65
  | .barolo_patina, .temporal_maturity => 0.90
  | .napa_monument, .structural_tension => 0.60
  | .napa_monument, .color_depth => 0.95
  | .napa_monument, .aromatic_complexity => 0.50
  | .napa_monument, .textural_weight => 0.95
  | .napa_monument, .temporal_maturity => 0.20
  | .riesling_crystal, .structural_tension => 0.90
  | .riesling_crystal, .color_depth => 0.15
  | .riesling_crystal, .aromatic_complexity => 0.55
  | .riesling_crystal, .textural_weight => 0.15
  | .riesling_crystal, .temporal_maturity => 0.10
  | .rhone_wildfire, .structural_tension => 0.55
  | .rhone_wildfire, .color_depth => 0.90
  | .rhone_wildfire, .aromatic_complexity => 0.65
  | .rhone_wildfire, .textural_weight => 0.85
  | .rhone_wildfire, .temporal_maturity => 0.35
  | .champagne_effervescence, .structural_tension => 0.80
  | .champagne_effervescence, .color_depth => 0.20
  | .champagne_effervescence, .aromatic_complexity => 0.60
  | .champagne_effervescence, .textural_weight => 0.25
  | .champagne_effervescence, .temporal_maturity => 0.30
  | .sauternes_gold, .structural_tension => 0.35
  | .sauternes_gold, .color_depth => 0.75
  | .sauternes_gold, .aromatic_complexity => 0.90
  | .sauternes_gold, .textural_weight => 0.80
  | .sauternes_gold, .temporal_maturity => 0.70

/-- `WINE_VISUAL_TYPES[id]["keywords"]`, transcribed from the source. -/
def WineVisualType.keywords : WineVisualType → List String
  | .burgundian_silk =>
    ["translucent ruby glow",
     "silk draped over fine bone structure",
     "delicate cherry-rose luminescence",
     "cool mineral transparency",
     "intimate layered depth",
     "precise elegant restraint",
     "forest-floor earthiness"]
  | .barolo_patina =>
    ["aged garnet-brick translucence",
     "tar and rose petal duality",
     "noble austere architecture",
     "chalky tannic grip texture",
     "tertiary truffle complexity",
     "time-weathered aristocratic patina",
     "dried herb and leather warmth"]
  | .napa_monument =>
    ["deep opaque purple-black density",
     "monumental architectural weight",
     "charred oak and dark fruit saturation",
     "bold commanding visual mass",
     "velvety concentrated darkness",
     "sun-drenched power and extract",
     "polished new-oak sheen"]
  | .riesling_crystal =>
    ["crystalline pale-straw luminosity",
     "razor-sharp mineral precision",
     "electric citrus-petrol clarity",
     "taut wire-like structural tension",
     "transparent slate-cold purity",
     "brilliant star-bright refraction",
     "weightless ethereal suspension"]
  | .rhone_wildfire =>
    ["inky purple-black smoke depth",
     "wild untamed visceral power",
     "cracked black pepper and smoked meat",
     "primal dynamic dark energy",
     "dense smoky atmospheric haze",
     "garrigue herb-scrub earthiness",
     "volcanic dark-fruit intensity"]
  | .champagne_effervescence =>
    ["pale gold effervescent sparkle",
     "fine persistent bead streams",
     "crisp autolytic biscuit elegance",
     "taut mousse-like textural lift",
     "luminous celebratory brightness",
     "chalk-driven mineral backbone",
     "precise toasty sophistication"]
  | .sauternes_gold =>
    ["deep amber-gold honeyed viscosity",
     "botrytis noble-rot opulence",
     "luscious apricot-saffron richness",
     "unctuous coating glycerol weight",
     "concentrated marmalade warmth",
     "perfumed exotic dried-fruit layers",
     "candied ginger and beeswax sheen"]

/-- The visual-type registry in its source (insertion) order. -/
def WINE_VISUAL_TYPES : List WineVisualType :=
  [.burgundian_silk, .barolo_patina, .napa_monument, .riesling_crystal,
   .rhone_wildfire, .champagne_effervescence, .sauternes_gold]

/-- Python `wine_type_id in WINE_VISUAL_TYPES` / `WINE_VISUAL_TYPES[wine_type_id]`. -/
def lookupVisualType (s : String) : Option WineVisualType :=
  WINE_VISUAL_TYPES.find? (fun t => t.id == s)

/-- `_generate_wine_oscillation(num_steps, num_cycles, pattern)`: the waveform
generator, `src/server.py` lines 1649-1664.  The raised
`ValueError(f"Unknown pattern: {pattern}")` is the `Except.error` case.
A non-positive `num_steps` makes Python's `range` empty, exactly as `ℕ`
subsumption does here. -/
noncomputable def _generate_wine_oscillation (num_steps : ℕ) (num_cycles : ℚ)
    (pattern : String) : Except String (List ℝ) :=
  let t : List ℝ :=
    (List.range num_steps).map
      (fun (i : ℕ) => 2 * Real.pi * (num_cycles : ℝ) * (i : ℝ) / (num_steps : ℝ))
  if pattern = "sinusoidal" then
    .ok (t.map (fun ti => 0.5 * (1 + Real.sin ti)))
  else if pattern = "triangular" then
    .ok (t.map (fun ti =>
      let t_norm := Int.fract (ti / (2 * Real.pi))
      if t_norm < 0.5 then 2 * t_norm else 2 * (1 - t_norm)))
  else if pattern = "square" then
    .ok (t.map (fun ti =>
      if Int.fract (ti / (2 * Real.pi)) < 0.5 then (0 : ℝ) else 1))
  else
    .error ("Unknown pattern: " ++ pattern)

/-- `_interpolate_wine_states(state_a_id, state_b_id, alpha)`, lines 1667-1674.
The two ids are always registered at every call site, so they are taken here
as `CanonicalState` directly (the dict lookups cannot fail). -/
noncomputable def _interpolate_wine_states (a b : CanonicalState) (alpha : ℝ) :
    Axis → ℝ :=
  fun p => (WINE_TASTING_COORDS a p : ℝ) * (1 - alpha) +
    (WINE_TASTING_COORDS b p : ℝ) * alpha

/-- The generator expression `(state1[p] - state2[p]) ** 2 for p in
WINE_PARAMETER_NAMES` inside `_euclidean_distance_wine`; `none` = a dict is
missing an axis (Python `KeyError`). -/
def sqDiffTerms? (s1 s2 : WDict) : Option (List ℚ) :=
  WINE_PARAMETER_NAMES.mapM (fun p => do
    let v1 ← dget? s1 p
    let v2 ← dget? s2 p
    pure ((v1 - v2) ^ 2))

/-- `_euclidean_distance_wine(state1, state2)`, lines 1677-1682:
`math.sqrt(sum(...))`. -/
noncomputable def _euclidean_distance_wine (s1 s2 : WDict) : Option ℝ :=
  (sqDiffTerms? s1 s2).map (fun l => Real.sqrt ((l.sum : ℚ) : ℝ))

/-- The value `_euclidean_distance_wine` computes on two complete states
(no lookup can fail): `√(Σ_p (s p - c p)²)`. -/
noncomputable def edist (s c : Axis → ℚ) : ℝ :=
  Real.sqrt (((WINE_PARAMETER_NAMES.map (fun p => (s p - c p) ^ 2)).sum : ℚ) : ℝ)

/-- The loop body of `_find_nearest_wine_visual_type` once `dist` is
computed: `if dist < min_dist: min_dist, nearest = dist, type_id`.  The
`none` second component is the initial `min_dist = float("inf")` — every
real distance is strictly below it, so the first iteration always
replaces the accumulator. -/
noncomputable def nearestStep (t : WineVisualType)
    (acc : Option String × Option ℝ) (dist : ℝ) : Option String × Option ℝ :=
  match acc with
  | (_, none) => (some t.id, some dist)
  | (nearest, some m) =>
      if dist < m then (some t.id, some dist) else (nearest, some m)

/-- `_find_nearest_wine_visual_type(state)`, lines 1685-1694.  The scan
starts from `nearest = None`, `min_dist = inf` and replaces the current
best only on a strictly smaller distance.  An outer `none` is a
`KeyError` escaping from the distance computation inside the loop. -/
noncomputable def _find_nearest_wine_visual_type (state : WDict) :
    Option (Option String × Option ℝ) :=
  WINE_VISUAL_TYPES.foldlM
    (fun acc t =>
      (_euclidean_distance_wine state (dictOf t.coords)).map (nearestStep t acc))
    ((none : Option String), (none : Option ℝ))

/-- `nearestStep` with the type already paired with its distance. -/
noncomputable def pairStep (acc : Option String × Option ℝ) (y : String × ℝ) :
    Option String × Option ℝ :=
  match acc with
  | (_, none) => (some y.1, some y.2)
  | (nearest, some m) =>
      if y.2 < m then (some y.1, some y.2) else (nearest, some m)

/-- Specification-side description of the scan of 4.3: the first entry of a
nonempty candidate list achieving the minimal key; on an exact tie the
earlier entry wins ("first found while scanning", spec Design Notes). -/
noncomputable def firstMinBy (x : String × ℝ) : List (String × ℝ) → String × ℝ
  | [] => x
  | y :: ys =>
      if x.2 ≤ (firstMinBy y ys).2 then x else firstMinBy y ys

/-- Modelled from the spec (4.3 `nearest` with the pinned first-found
tie-break): the id and distance of the first archetype, in registry order,
at minimal distance from `s`. -/
noncomputable def nearestSpec (s : Axis → ℚ) : Option (String × ℝ) :=
  match WINE_VISUAL_TYPES.map (fun t => (t.id, edist s t.coords)) with
  | [] => none
  | c :: cs => some (firstMinBy c cs)

/-- Python `max(l, key=f)` for a nonempty list `x :: l`: scans left to
right and replaces the current best only on a strictly larger key, so the
first element with the maximal key wins. -/
def pyMaxBy (f : Axis → ℚ) (x : Axis) (l : List Axis) : Axis :=
  l.foldl (fun best p => if f best < f p then p else best) x

/-- Specification-side description of `pyMaxBy`: the first element of the
nonempty list `x :: l` achieving the maximal key (on a tie the earlier
element wins). -/
def firstMaxBy (f : Axis → ℚ) (x : Axis) : List Axis → Axis
  | [] => x
  | y :: ys => if f (firstMaxBy f y ys) ≤ f x then x else firstMaxBy f y ys

/-- One step of the trajectory of `compute_wine_tasting_trajectory`
(lines 1885-1898): the JSON object `{"step", "t", "state",
"nearest_visual_type", "distance_to_nearest"}`; `nearest` keeps the raw
`(type_id, distance)` pair of `_find_nearest_wine_visual_type` (the JSON
rounds the distance to 4 places for display). -/
structure TrajStep where
  step : ℕ
  t : ℚ
  state : Axis → ℚ
  nearest : Option (Option String × Option ℝ)

/-- The success payload of `compute_wine_tasting_trajectory`. -/
structure TrajectoryResult where
  total_distance : Option ℝ
  dominant_transition_axis : Option Axis
  trajectory : List TrajStep

/-- `compute_wine_tasting_trajectory(start, end, num_steps)`,
lines 1860-1913, on registered ids (the unknown-id branch returns before
this computation).  `t = i / num_steps` is the exact sample position the
state is interpolated at; the recorded `t` field is `round(t, 3)`, each
state component is `round(..., 4)`.  `dominant_transition_axis` is
`max(WINE_PARAMETER_NAMES, key=lambda p: abs(end[p] - start[p]))`. -/
noncomputable def compute_wine_tasting_trajectory (A B : WineVisualType)
    (num_steps : ℕ) : TrajectoryResult :=
  { total_distance :=
      (_euclidean_distance_wine (dictOf A.coords) (dictOf B.coords)).map
        (roundToR 4)
  , dominant_transition_axis :=
      match WINE_PARAMETER_NAMES with
      | [] => none
      | x :: l => some (pyMaxBy (fun p => |B.coords p - A.coords p|) x l)
  , trajectory :=
      (List.range (num_steps + 1)).map (fun (i : ℕ) =>
        let t : ℚ := (i : ℚ) / (num_steps : ℚ)
        let st : Axis → ℚ :=
          fun p => roundTo 4 (A.coords p * (1 - t) + B.coords p * t)
        { step := i
        , t := roundTo 3 t
        , state := st
        , nearest := _find_nearest_wine_visual_type (dictOf st) }) }

/-- The keyframe index selection of `generate_wine_tasting_sequence_prompts`
(lines 2228-2232): the whole range when `count >= total`, else
`int(i * total / count)` for `i in range(count)` (all values nonnegative,
so `int` truncation is `Nat` division). -/
def extract_keyframe_indices (total count : ℕ) : List ℕ :=
  if count ≥ total then List.range total
  else (List.range count).map (fun i => i * total / count)

/-- The keyframe extraction `[sequence[idx] for idx in indices]`
(lines 2234-2235 ff.), generic in the element type.  `get?` models the
index access; every selected index is proved valid, so no element is
dropped. -/
def extract_keyframes {α : Type} (seq : List α) (count : ℕ) : List α :=
  (extract_keyframe_indices seq.length count).filterMap (fun i => seq.get? i)

/-- A `WINE_RHYTHMIC_PRESETS` entry.  `state_a` / `state_b` are stored as
registered canonical states (the source stores their id strings; the
registry lookup in `_generate_wine_preset_sequence` cannot fail for them). -/
structure RhythmicPreset where
  state_a : CanonicalState
  state_b : CanonicalState
  pattern : String
  num_cycles : ℕ
  steps_per_cycle : ℕ
  description : String

/-- The five presets of `WINE_RHYTHMIC_PRESETS` in source order. -/
def WINE_RHYTHMIC_PRESETS : List (String × RhythmicPreset) :=
  [("aging_evolution",
    { state_a := .young_burgundy, state_b := .aged_barolo,
      pattern := "sinusoidal", num_cycles := 3, steps_per_cycle := 24,
      description :=
        "Temporal evolution from youthful vibrancy to aged complexity" }),
   ("weight_spectrum",
    { state_a := .mosel_riesling, state_b := .napa_cabernet,
      pattern := "triangular", num_cycles := 4, steps_per_cycle := 20,
      description :=
        "Full sweep from crystalline delicacy to monumental density" }),
   ("terroir_pulse",
    { state_a := .young_burgundy, state_b := .rhone_syrah,
      pattern := "sinusoidal", num_cycles := 4, steps_per_cycle := 18,
      description :=
        "Cool-climate finesse pulsing against warm-climate power" }),
   ("elegance_richness",
    { state_a := .champagne_brut, state_b := .sauternes,
      pattern := "sinusoidal", num_cycles := 5, steps_per_cycle := 15,
      description :=
        "Taut effervescent precision cycling with honeyed opulence" }),
   ("structure_toggle",
    { state_a := .mosel_riesling, state_b := .aged_barolo,
      pattern := "square", num_cycles := 5, steps_per_cycle := 12,
      description :=
        "Sharp alternation between crystalline youth and austere maturity" })]

/-- Python `preset_name in WINE_RHYTHMIC_PRESETS` / the dict lookup. -/
def lookupPreset (s : String) : Option RhythmicPreset :=
  (WINE_RHYTHMIC_PRESETS.find? (fun e => e.1 == s)).map (fun e => e.2)

/-- One element of a generated rhythmic sequence (`_generate_wine_preset_sequence`,
lines 1697-1712): `{"step": i, "phase": i / total_steps,
"blend_factor": round(alpha, 4), "state": {p: round(v, 4)}}`. -/
structure SequenceStep where
  step : ℕ
  phase : ℚ
  blend_factor : ℝ
  state : Axis → ℝ

/-- `_generate_wine_preset_sequence(preset_name)`, lines 1697-1712; an
`Except.error` is the oscillation generator's `ValueError` propagating
(never reached for the five registered presets). -/
noncomputable def _generate_wine_preset_sequence (preset : RhythmicPreset) :
    Except String (List SequenceStep) := do
  let total := preset.num_cycles * preset.steps_per_cycle
  let alphas ← _generate_wine_oscillation total (preset.num_cycles : ℚ)
    preset.pattern
  pure (alphas.enum.map (fun ia =>
    { step := ia.1
    , phase := (ia.1 : ℚ) / (total : ℚ)
    , blend_factor := roundToR 4 ia.2
    , state := fun p =>
        roundToR 4 (_interpolate_wine_states preset.state_a preset.state_b
          ia.2 p) }))

/-- The outcome of one MCP tool call: `ok` a success payload, `err` a
structured error object returned as an ordinary value (the
`json.dumps({"error": ...})` returns), `exn` an exception escaping the tool
unhandled (its message; for a Python `KeyError` the message content is not
modelled). -/
inductive ToolResult (ε α : Type) : Type
  | exn (msg : String)
  | err (e : ε)
  | ok (a : α)

/-- Whether a tool call succeeded. -/
def ToolResult.isOk {ε α : Type} : ToolResult ε α → Bool
  | .ok _ => true
  | _ => false

/-- The structured error object `{"error": msg, "available": [...]}`. -/
structure WineToolError where
  error : String
  available : List String
deriving DecidableEq

/-- The id string wrapped in single quotes, as the f-strings
`f"Unknown preset '{preset_name}'"` produce (the quote character written
by code point to keep the embedding printable). -/
def squoted (s : String) : String :=
  String.mk [Char.ofNat 39] ++ s ++ String.mk [Char.ofNat 39]

/-- The ids valid for visual-type lookups, as listed in the tools'
`"available"` fields. -/
def visualTypeIds : List String := WINE_VISUAL_TYPES.map (fun t => t.id)

/-- The ids valid for preset lookups. -/
def presetIds : List String := WINE_RHYTHMIC_PRESETS.map (fun e => e.1)

/-- Success payload of `compute_wine_tasting_distance` (lines 1824-1852):
the rounded Euclidean distance and the per-axis absolute-difference
breakdown. -/
structure DistancePayload where
  euclidean_distance : Option ℝ
  per_parameter : Axis → ℚ

/-- `compute_wine_tasting_distance(wine_type_id_1, wine_type_id_2)`,
lines 1824-1852.  The unknown-id branch returns the generic message
`"Unknown wine type(s)"` — it does not mention the attempted ids. -/
noncomputable def compute_wine_tasting_distance (id1 id2 : String) :
    ToolResult WineToolError DistancePayload :=
  match lookupVisualType id1, lookupVisualType id2 with
  | some t1, some t2 =>
      .ok { euclidean_distance :=
              (_euclidean_distance_wine (dictOf t1.coords)
                (dictOf t2.coords)).map (roundToR 4)
          , per_parameter := fun p => roundTo 4 |t1.coords p - t2.coords p| }
  | _, _ => .err { error := "Unknown wine type(s)", available := visualTypeIds }

/-- Success payload of `apply_wine_tasting_rhythmic_preset`
(lines 1946-1985). -/
structure PresetPayload where
  period : ℕ
  total_steps : ℕ
  pattern : String
  state_a : String
  state_b : String
  description : String
  sequence : List SequenceStep

/-- `apply_wine_tasting_rhythmic_preset(preset_name)`, lines 1946-1985.
The unknown-preset branch returns `{"error": f"Unknown preset
'{preset_name}'", "available": [...]}` — the message carries the id. -/
noncomputable def apply_wine_tasting_rhythmic_preset (preset_name : String) :
    ToolResult WineToolError PresetPayload :=
  match lookupPreset preset_name with
  | none =>
      .err { error := "Unknown preset " ++ squoted preset_name
           , available := presetIds }
  | some preset =>
      match _generate_wine_preset_sequence preset with
      | .error m => .exn m
      | .ok seq =>
          .ok { period := preset.steps_per_cycle
              , total_steps := seq.length
              , pattern := preset.pattern
              , state_a := preset.state_a.name
              , state_b := preset.state_b.name
              , description := preset.description
              , sequence := seq }

/-- Success payload of `extract_wine_tasting_visual_vocabulary`
(lines 2043-2087): the nearest type, its (rounded) distance, the keyword
bundle with the strength weighting `round(strength * (1 - 0.05*i), 2)`,
and the echoed `input_state` (`round(coords.get(p, 0.0), 4)`). -/
structure VocabPayload where
  nearest_type : String
  distance : Option ℝ
  keywords : List String
  weighted_keywords : List (String × ℚ)
  input_state : Axis → ℚ

/-- `extract_wine_tasting_visual_vocabulary(state, wine_type_id, strength)`,
lines 2043-2087.  Coordinate resolution (lines 2065-2070): a truthy
`wine_type_id` that is registered wins; otherwise a truthy (non-empty)
`state` dict is used as-is, with no validation of its axes or ranges;
otherwise the structured error is returned.  A `KeyError` raised by the
nearest-type scan (missing axis in a caller dict) escapes as `exn`. -/
noncomputable def extract_wine_tasting_visual_vocabulary
    (state : Option WDict) (wine_type_id : String) (strength : ℚ) :
    ToolResult String VocabPayload :=
  let go : WDict → ToolResult String VocabPayload := fun coords =>
    match _find_nearest_wine_visual_type coords with
    | none => .exn "KeyError"
    | some (none, _) => .exn "KeyError"
    | some (some nearest_type, distOpt) =>
        match lookupVisualType nearest_type with
        | none => .exn "KeyError"
        | some t =>
            .ok { nearest_type := nearest_type
                , distance := distOpt.map (roundToR 4)
                , keywords := t.keywords
                , weighted_keywords := t.keywords.enum.map (fun ik =>
                    (ik.2, roundTo 2 (strength * (1 - 0.05 * (ik.1 : ℚ)))))
                , input_state := fun p => roundTo 4 ((dget? coords p).getD 0) }
  if wine_type_id ≠ "" ∧ (lookupVisualType wine_type_id).isSome then
    match lookupVisualType wine_type_id with
    | some t => go (dictOf t.coords)
    | none => .exn "unreachable"
  else
    match state with
    | some d =>
        if d.isEmpty then .err "Provide either state or wine_type_id"
        else go d
    | none => .err "Provide either state or wine_type_id"

/-- The coordinate-resolution prefix of `generate_wine_tasting_prompt`
(lines 2113-2121): a truthy `custom_state` wins; otherwise a truthy,
registered `wine_type_id`; otherwise the structured error with the valid
ids.  (The prompt-string synthesis past this point consumes only the
out-of-scope descriptor bundles.) -/
def generate_wine_tasting_prompt_resolve (wine_type_id : String)
    (custom_state : Option WDict) : Except WineToolError WDict :=
  match custom_state with
  | some d =>
      if d.isEmpty then
        match lookupVisualType wine_type_id with
        | some t => if wine_type_id ≠ "" then .ok (dictOf t.coords) else
            .error { error := "Provide wine_type_id or custom_state"
                   , available := visualTypeIds }
        | none =>
            .error { error := "Provide wine_type_id or custom_state"
                   , available := visualTypeIds }
      else .ok d
  | none =>
      match lookupVisualType wine_type_id with
      | some t => if wine_type_id ≠ "" then .ok (dictOf t.coords) else
          .error { error := "Provide wine_type_id or custom_state"
                 , available := visualTypeIds }
      | none =>
          .error { error := "Provide wine_type_id or custom_state"
                 , available := visualTypeIds }

/-! ### Basic lemmas about dictionaries and the distance function -/

theorem dget?_dictOf (s : Axis → ℚ) (p : Axis) : dget? (dictOf s) p = some (s p) := by
  cases p <;> rfl

theorem sqDiffTerms?_dictOf (s c : Axis → ℚ) :
    sqDiffTerms? (dictOf s) (dictOf c) =
      some (WINE_PARAMETER_NAMES.map (fun p => (s p - c p) ^ 2)) := by
  simp [sqDiffTerms?, WINE_PARAMETER_NAMES, dget?_dictOf, List.mapM.loop]

theorem euclidean_distance_dictOf (s c : Axis → ℚ) :
    _euclidean_distance_wine (dictOf s) (dictOf c) = some (edist s c) := by
  simp [_euclidean_distance_wine, sqDiffTerms?_dictOf, edist]

theorem edist_self (s : Axis → ℚ) : edist s s = 0 := by
  simp [edist, WINE_PARAMETER_NAMES]

theorem edist_comm (s1 s2 : Axis → ℚ) : edist s1 s2 = edist s2 s1 := by
  unfold edist
  congr 1
  push_cast
  simp [WINE_PARAMETER_NAMES]
  ring

theorem sqsum_eq_zero_iff (s1 s2 : Axis → ℚ) :
    (WINE_PARAMETER_NAMES.map (fun p => (s1 p - s2 p) ^ 2)).sum = 0 ↔
      ∀ p, s1 p = s2 p := by
  constructor
  · intro h p
    simp only [WINE_PARAMETER_NAMES, List.map_cons, List.map_nil, List.sum_cons,
      List.sum_nil, add_zero] at h
    cases p <;>
      nlinarith [sq_nonneg (s1 Axis.structural_tension - s2 Axis.structural_tension),
        sq_nonneg (s1 Axis.color_depth - s2 Axis.color_depth),
        sq_nonneg (s1 Axis.aromatic_complexity - s2 Axis.aromatic_complexity),
        sq_nonneg (s1 Axis.textural_weight - s2 Axis.textural_weight),
        sq_nonneg (s1 Axis.temporal_maturity - s2 Axis.temporal_maturity)]
  · intro h
    simp [h]

theorem edist_eq_zero_iff (s1 s2 : Axis → ℚ) :
    edist s1 s2 = 0 ↔ ∀ p, s1 p = s2 p := by
  have hq : (0 : ℚ) ≤ (WINE_PARAMETER_NAMES.map (fun p => (s1 p - s2 p) ^ 2)).sum := by
    simp only [WINE_PARAMETER_NAMES, List.map_cons, List.map_nil, List.sum_cons,
      List.sum_nil, add_zero]
    positivity
  rw [edist, Real.sqrt_eq_zero (by exact_mod_cast hq)]
  rw [show ((((WINE_PARAMETER_NAMES.map (fun p => (s1 p - s2 p) ^ 2)).sum : ℚ) : ℝ) = 0) ↔
      ((WINE_PARAMETER_NAMES.map (fun p => (s1 p - s2 p) ^ 2)).sum = 0) from by
    exact_mod_cast Iff.rfl]
  exact sqsum_eq_zero_iff s1 s2

/-- C2: for every pair of registered canonical states `A` and `B`,
interpolation at blend factor `alpha = 0` returns `A` on every axis exactly,
and at `alpha = 1` returns `B` on every axis exactly (`alpha*0` and
`alpha*1` products and the final sum are exact in float arithmetic too, so
the rational identity proved here is the float identity). -/
theorem interpolate_endpoints_exact (a b : CanonicalState) :
    (∀ p, _interpolate_wine_states a b 0 p = (WINE_TASTING_COORDS a p : ℝ))
    ∧ (∀ p, _interpolate_wine_states a b 1 p = (WINE_TASTING_COORDS b p : ℝ)) := by
  constructor <;> intro p <;> simp [_interpolate_wine_states]

/-- C3: the distance function is zero on equal arguments, symmetric,
non-negative, and zero exactly when the two states agree on every axis
(stated on complete states — the dictionaries the engine's call sites
construct always carry all five axes). -/
theorem distance_metric_properties (s s1 s2 : Axis → ℚ) :
    _euclidean_distance_wine (dictOf s) (dictOf s) = some 0
    ∧ _euclidean_distance_wine (dictOf s1) (dictOf s2) =
        _euclidean_distance_wine (dictOf s2) (dictOf s1)
    ∧ ∃ r, _euclidean_distance_wine (dictOf s1) (dictOf s2) = some r
        ∧ 0 ≤ r ∧ (r = 0 ↔ ∀ p, s1 p = s2 p) := by
  refine ⟨?_, ?_, edist s1 s2, euclidean_distance_dictOf s1 s2,
    Real.sqrt_nonneg _, edist_eq_zero_iff s1 s2⟩
  · rw [euclidean_distance_dictOf, edist_self]
  · rw [euclidean_distance_dictOf, euclidean_distance_dictOf, edist_comm]

/-! ### Waveform generator -/

theorem oscillation_unknown_pattern (n : ℕ) (c : ℚ) (pat : String)
    (h1 : pat ≠ "sinusoidal") (h2 : pat ≠ "triangular") (h3 : pat ≠ "square") :
    _generate_wine_oscillation n c pat = .error ("Unknown pattern: " ++ pat) := by
  simp [_generate_wine_oscillation, h1, h2, h3]

theorem oscillation_sinusoidal (n : ℕ) (c : ℚ) :
    _generate_wine_oscillation n c "sinusoidal" =
      .ok (((List.range n).map
          (fun (i : ℕ) => 2 * Real.pi * (c : ℝ) * (i : ℝ) / (n : ℝ))).map
        (fun ti => 0.5 * (1 + Real.sin ti))) := by
  simp [_generate_wine_oscillation]

theorem oscillation_triangular (n : ℕ) (c : ℚ) :
    _generate_wine_oscillation n c "triangular" =
      .ok (((List.range n).map
          (fun (i : ℕ) => 2 * Real.pi * (c : ℝ) * (i : ℝ) / (n : ℝ))).map
        (fun ti =>
          let t_norm := Int.fract (ti / (2 * Real.pi))
          if t_norm < 0.5 then 2 * t_norm else 2 * (1 - t_norm))) := by
  simp [_generate_wine_oscillation]

theorem oscillation_square (n : ℕ) (c : ℚ) :
    _generate_wine_oscillation n c "square" =
      .ok (((List.range n).map
          (fun (i : ℕ) => 2 * Real.pi * (c : ℝ) * (i : ℝ) / (n : ℝ))).map
        (fun ti =>
          if Int.fract (ti / (2 * Real.pi)) < 0.5 then (0 : ℝ) else 1)) := by
  simp [_generate_wine_oscillation]

/-- C4: for every positive `totalSteps` and every cycle count, the
oscillation generator returns exactly `totalSteps` samples; sinusoidal and
triangular samples all lie in `[0, 1]`; square samples are each `0` or `1`. -/
theorem oscillation_length_and_bounds (n : ℕ) (c : ℚ) (hn : 0 < n) :
    (∃ l, _generate_wine_oscillation n c "sinusoidal" = .ok l ∧ l.length = n
      ∧ ∀ x ∈ l, 0 ≤ x ∧ x ≤ 1)
    ∧ (∃ l, _generate_wine_oscillation n c "triangular" = .ok l ∧ l.length = n
      ∧ ∀ x ∈ l, 0 ≤ x ∧ x ≤ 1)
    ∧ (∃ l, _generate_wine_oscillation n c "square" = .ok l ∧ l.length = n
      ∧ ∀ x ∈ l, x = 0 ∨ x = 1) := by
  refine ⟨⟨_, oscillation_sinusoidal n c, by rw [List.length_map, List.length_map, List.length_range], ?_⟩,
    ⟨_, oscillation_triangular n c, by rw [List.length_map, List.length_map, List.length_range], ?_⟩,
    ⟨_, oscillation_square n c, by rw [List.length_map, List.length_map, List.length_range], ?_⟩⟩
  · intro x hx
    simp only [List.mem_map] at hx
    obtain ⟨ti, -, rfl⟩ := hx
    constructor <;> nlinarith [Real.neg_one_le_sin ti, Real.sin_le_one ti]
  · intro x hx
    simp only [List.mem_map] at hx
    obtain ⟨ti, -, rfl⟩ := hx
    have h0 := Int.fract_nonneg (ti / (2 * Real.pi))
    have h1 := Int.fract_lt_one (ti / (2 * Real.pi))
    split_ifs with h <;> constructor <;> linarith
  · intro x hx
    simp only [List.mem_map] at hx
    obtain ⟨ti, -, rfl⟩ := hx
    split_ifs with h
    · exact Or.inl rfl
    · exact Or.inr rfl

/-- C5 counterexample: calling the oscillation generator with the
non-positive `totalSteps = 0` does not fail with an InvalidArgument error;
it returns the empty sequence as a success value (for a negative
`total_steps` Python's `range` is empty exactly as for `0`). -/
theorem nonpositive_steps_returns_empty :
    _generate_wine_oscillation 0 2 "sinusoidal" = Except.ok [] := by
  rw [oscillation_sinusoidal]
  simp

/-- C5 as amended: only an unknown waveform pattern name raises
(`ValueError`, the InvalidArgument of the spec); a known pattern with
non-positive `totalSteps` silently returns the empty sequence, and a
keyframe count of `0` (the embedding of any non-positive count: Python's
`range(k)` is empty for `k ≤ 0`) silently returns an empty keyframe list
instead of failing. -/
theorem invalid_argument_behaviour (n : ℕ) (c : ℚ) (pat : String) :
    (pat ≠ "sinusoidal" → pat ≠ "triangular" → pat ≠ "square" →
      _generate_wine_oscillation n c pat = .error ("Unknown pattern: " ++ pat))
    ∧ (_generate_wine_oscillation 0 c "sinusoidal" = .ok []
        ∧ _generate_wine_oscillation 0 c "triangular" = .ok []
        ∧ _generate_wine_oscillation 0 c "square" = .ok [])
    ∧ (∀ (seq : List SequenceStep), 0 < seq.length →
        extract_keyframes seq 0 = []) := by
  refine ⟨oscillation_unknown_pattern n c pat, ⟨?_, ?_, ?_⟩, ?_⟩
  · rw [oscillation_sinusoidal]; simp
  · rw [oscillation_triangular]; simp
  · rw [oscillation_square]; simp
  · intro seq h
    have hne : ¬ (0 ≥ seq.length) := by omega
    simp [extract_keyframes, extract_keyframe_indices, hne]

/-! ### Keyframe extraction -/

theorem filterMap_get?_of_range {α : Type} (l : List α) :
    (List.range l.length).filterMap (fun i => l.get? i) = l := by
  induction l with
  | nil => simp
  | cons x xs ih =>
    rw [List.length_cons, List.range_succ_eq_map, List.filterMap_cons]
    simp only [List.get?_cons_zero, List.filterMap_map]
    have : (fun i => (x :: xs).get? (Nat.succ i)) = fun i => xs.get? i := by
      funext i; simp
    simp only [Function.comp_def, List.get?_cons_succ]
    rw [ih]

theorem filterMap_get?_length {α : Type} (l : List α) (is : List ℕ)
    (h : ∀ j ∈ is, j < l.length) :
    (is.filterMap (fun i => l.get? i)).length = is.length := by
  induction is with
  | nil => simp
  | cons a as ih =>
    have ha : a < l.length := h a (by simp)
    rw [List.filterMap_cons, List.get?_eq_get ha]
    simp only [List.length_cons]
    rw [ih (fun j hj => h j (by simp [hj]))]

theorem keyframe_index_lt (n k i : ℕ) (hkn : k < n) (hik : i < k) :
    i * n / k < n := by
  have hk : 0 < k := by omega
  rw [Nat.div_lt_iff_lt_mul hk]
  nlinarith

theorem keyframe_index_strict_mono (n k i j : ℕ) (hk : 0 < k) (hkn : k < n)
    (hij : i < j) : i * n / k < j * n / k := by
  have h1 : i * n / k + 1 ≤ (i + 1) * n / k := by
    have hstep : i * n + k ≤ (i + 1) * n := by nlinarith
    calc i * n / k + 1 = (i * n + k) / k := (Nat.add_div_right _ hk).symm
      _ ≤ ((i + 1) * n) / k := Nat.div_le_div_right hstep
  have h2 : (i + 1) * n / k ≤ j * n / k :=
    Nat.div_le_div_right (Nat.mul_le_mul_right n hij)
  omega

/-- C7: the keyframe extractor returns the whole sequence when the request
covers it, and otherwise exactly `k` elements at the strictly increasing,
valid source indices `⌊i·N/k⌋` starting at index `0`; the result always has
exactly `min k N` elements. -/
theorem keyframe_extraction_spec {α : Type} (seq : List α) (k : ℕ) :
    (seq.length ≤ k → extract_keyframes seq k = seq)
    ∧ (k < seq.length →
        extract_keyframe_indices seq.length k =
          (List.range k).map (fun i => i * seq.length / k)
        ∧ (extract_keyframes seq k).length = k
        ∧ (extract_keyframe_indices seq.length k).Pairwise (· < ·)
        ∧ (∀ j ∈ extract_keyframe_indices seq.length k, j < seq.length)
        ∧ (0 < k → (extract_keyframe_indices seq.length k).head? = some 0))
    ∧ (extract_keyframes seq k).length = min k seq.length := by
  by_cases hk : seq.length ≤ k
  · refine ⟨fun _ => ?_, fun h => absurd h (by omega), ?_⟩
    · rw [extract_keyframes, extract_keyframe_indices, if_pos hk,
        filterMap_get?_of_range]
    · rw [extract_keyframes, extract_keyframe_indices, if_pos hk,
        filterMap_get?_of_range]
      omega
  · push_neg at hk
    have hids : extract_keyframe_indices seq.length k =
        (List.range k).map (fun i => i * seq.length / k) := by
      rw [extract_keyframe_indices, if_neg (by omega)]
    have hvalid : ∀ j ∈ extract_keyframe_indices seq.length k, j < seq.length := by
      rw [hids]
      intro j hj
      simp only [List.mem_map, List.mem_range] at hj
      obtain ⟨i, hik, rfl⟩ := hj
      exact keyframe_index_lt seq.length k i hk hik
    have hlen : (extract_keyframes seq k).length = k := by
      rw [extract_keyframes, filterMap_get?_length seq _ hvalid, hids,
        List.length_map, List.length_range]
    refine ⟨fun h => absurd h (by omega), fun _ => ⟨hids, hlen, ?_, hvalid, ?_⟩, ?_⟩
    · rw [hids, List.pairwise_map]
      rcases Nat.eq_zero_or_pos k with hk0 | hk0
      · subst hk0; simp
      · refine List.Pairwise.imp ?_ (List.pairwise_lt_range k)
        intro i j hij
        exact keyframe_index_strict_mono seq.length k i j hk0 hk hij
    · intro hk0
      rw [hids]
      cases k with
      | zero => omega
      | succ m =>
        rw [List.range_succ_eq_map]
        simp
    · rw [hlen]; omega

/-! ### Trajectory engine -/

theorem roundTo4_visual_coords (T : WineVisualType) (p : Axis) :
    roundTo 4 (T.coords p) = T.coords p := by
  cases T <;> cases p <;> norm_num [roundTo, WineVisualType.coords]

theorem firstMaxBy_ge (f : Axis → ℚ) (x : Axis) (l : List Axis) :
    f x ≤ f (firstMaxBy f x l) := by
  cases l with
  | nil => exact le_refl _
  | cons y ys =>
    rw [firstMaxBy]
    split_ifs with h
    · exact le_refl _
    · exact le_of_lt (lt_of_not_le h)

theorem firstMaxBy_cons_of_ge (f : Axis → ℚ) (x y : Axis) (ys : List Axis)
    (hxy : f y ≤ f x) :
    firstMaxBy f x (y :: ys) = firstMaxBy f x ys := by
  cases ys with
  | nil => simp [firstMaxBy, hxy]
  | cons z zs =>
    rw [firstMaxBy, firstMaxBy, firstMaxBy]
    by_cases hyc : f (firstMaxBy f z zs) ≤ f y
    · rw [if_pos hyc, if_pos hxy, if_pos (le_trans hyc hxy)]
    · rw [if_neg hyc]

theorem pyMaxBy_eq_firstMaxBy (f : Axis → ℚ) :
    ∀ (l : List Axis) (x : Axis), pyMaxBy f x l = firstMaxBy f x l := by
  intro l
  induction l with
  | nil => intro x; rfl
  | cons y ys ih =>
    intro x
    rw [pyMaxBy, List.foldl_cons]
    by_cases h : f x < f y
    · rw [if_pos h]
      have h1 : ys.foldl (fun best p => if f best < f p then p else best) y =
          firstMaxBy f y ys := ih y
      rw [h1, firstMaxBy]
      have hx : ¬ f (firstMaxBy f y ys) ≤ f x :=
        not_le.mpr (lt_of_lt_of_le h (firstMaxBy_ge f y ys))
      rw [if_neg hx]
    · rw [if_neg h]
      have h1 : ys.foldl (fun best p => if f best < f p then p else best) x =
          firstMaxBy f x ys := ih x
      rw [h1]
      exact (firstMaxBy_cons_of_ge f x y ys (le_of_not_lt h)).symm

theorem firstMaxBy_first_max (f : Axis → ℚ) :
    ∀ (l : List Axis) (x : Axis),
      ∃ n : ℕ, ∃ h : n < (x :: l).length,
        firstMaxBy f x l = (x :: l).get ⟨n, h⟩
        ∧ (∀ (m : ℕ) (hm : m < (x :: l).length),
            f ((x :: l).get ⟨m, hm⟩) ≤ f (firstMaxBy f x l))
        ∧ (∀ (m : ℕ) (hm : m < (x :: l).length), m < n →
            f ((x :: l).get ⟨m, hm⟩) < f (firstMaxBy f x l)) := by
  intro l
  induction l with
  | nil =>
    intro x
    refine ⟨0, by simp, rfl, ?_, ?_⟩
    · intro m hm
      have : m = 0 := by simpa using Nat.lt_one_iff.mp (by simpa using hm)
      subst this
      exact le_refl _
    · intro m hm hm0
      omega
  | cons y ys ih =>
    intro x
    obtain ⟨n, hn, hr, hmax, hlt⟩ := ih y
    by_cases hcase : f (firstMaxBy f y ys) ≤ f x
    · refine ⟨0, by simp, ?_, ?_, ?_⟩
      · rw [firstMaxBy, if_pos hcase]; rfl
      · intro m hm
        rw [firstMaxBy, if_pos hcase]
        cases m with
        | zero => exact le_refl _
        | succ k =>
          have hk : k < (y :: ys).length := by simpa using hm
          have h1 : ((x :: y :: ys).get ⟨k + 1, hm⟩) = (y :: ys).get ⟨k, hk⟩ := rfl
          rw [h1]
          exact le_trans (hmax k hk) hcase
      · intro m hm hm0
        omega
    · push_neg at hcase
      refine ⟨n + 1, by simpa using hn, ?_, ?_, ?_⟩
      · rw [firstMaxBy, if_neg (not_le.mpr hcase), hr]; rfl
      · intro m hm
        rw [firstMaxBy, if_neg (not_le.mpr hcase)]
        cases m with
        | zero => exact le_of_lt hcase
        | succ k =>
          have hk : k < (y :: ys).length := by simpa using hm
          have h1 : ((x :: y :: ys).get ⟨k + 1, hm⟩) = (y :: ys).get ⟨k, hk⟩ := rfl
          rw [h1]
          exact hmax k hk
      · intro m hm hmn
        rw [firstMaxBy, if_neg (not_le.mpr hcase)]
        cases m with
        | zero => exact hcase
        | succ k =>
          have hk : k < (y :: ys).length := by simpa using hm
          have h1 : ((x :: y :: ys).get ⟨k + 1, hm⟩) = (y :: ys).get ⟨k, hk⟩ := rfl
          rw [h1]
          exact hlt k hk (by omega)

theorem axis_get_axisIdx (p : Axis) :
    ∃ h : axisIdx p < WINE_PARAMETER_NAMES.length,
      WINE_PARAMETER_NAMES.get ⟨axisIdx p, h⟩ = p := by
  cases p <;> exact ⟨by simp [axisIdx, WINE_PARAMETER_NAMES], rfl⟩

theorem axisIdx_get (m : ℕ) (h : m < WINE_PARAMETER_NAMES.length) :
    axisIdx (WINE_PARAMETER_NAMES.get ⟨m, h⟩) = m := by
  have h5 : m < 5 := by simpa [WINE_PARAMETER_NAMES] using h
  interval_cases m <;> rfl

/-- C1: for every pair of registered visual types and every positive
`numSteps`, the trajectory holds exactly `numSteps + 1` samples; the sample
at index `i` is the state interpolated at `t = i / numSteps` exactly (each
component rounded to 4 places for display); the samples at `i = 0` and
`i = numSteps` reproduce the two endpoint states exactly; and the reported
dominant transition axis maximizes `|B[axis] - A[axis]|`, with every axis
earlier in the fixed declaration order strictly below the maximum. -/
theorem trajectory_sampling_spec (A B : WineVisualType) (n : ℕ) (hn : 0 < n) :
    (compute_wine_tasting_trajectory A B n).trajectory.length = n + 1
    ∧ (∀ (i : ℕ) (h : i < (compute_wine_tasting_trajectory A B n).trajectory.length),
        ((compute_wine_tasting_trajectory A B n).trajectory.get ⟨i, h⟩).state =
          fun p => roundTo 4 (A.coords p * (1 - (i : ℚ) / (n : ℚ)) +
            B.coords p * ((i : ℚ) / (n : ℚ))))
    ∧ (∀ h : 0 < (compute_wine_tasting_trajectory A B n).trajectory.length,
        ((compute_wine_tasting_trajectory A B n).trajectory.get ⟨0, h⟩).state =
          A.coords)
    ∧ (∀ h : n < (compute_wine_tasting_trajectory A B n).trajectory.length,
        ((compute_wine_tasting_trajectory A B n).trajectory.get ⟨n, h⟩).state =
          B.coords)
    ∧ ∃ d, (compute_wine_tasting_trajectory A B n).dominant_transition_axis = some d
        ∧ (∀ p, |B.coords p - A.coords p| ≤ |B.coords d - A.coords d|)
        ∧ ∀ p, axisIdx p < axisIdx d →
            |B.coords p - A.coords p| < |B.coords d - A.coords d| := by
  have hstate : ∀ (i : ℕ) (h : i < (compute_wine_tasting_trajectory A B n).trajectory.length),
      ((compute_wine_tasting_trajectory A B n).trajectory.get ⟨i, h⟩).state =
        fun p => roundTo 4 (A.coords p * (1 - (i : ℚ) / (n : ℚ)) +
          B.coords p * ((i : ℚ) / (n : ℚ))) := by
    intro i h
    simp only [compute_wine_tasting_trajectory, List.get_eq_getElem,
      List.getElem_map, List.getElem_range]
  refine ⟨by simp [compute_wine_tasting_trajectory], hstate, ?_, ?_, ?_⟩
  · intro h
    rw [hstate 0 h]
    funext p
    have h0 : ((0 : ℕ) : ℚ) / (n : ℚ) = 0 := by simp
    rw [h0]
    rw [show A.coords p * (1 - 0) + B.coords p * 0 = A.coords p by ring]
    exact roundTo4_visual_coords A p
  · intro h
    rw [hstate n h]
    funext p
    have h1 : ((n : ℕ) : ℚ) / (n : ℚ) = 1 :=
      div_self (Nat.cast_ne_zero.mpr (by omega))
    rw [h1]
    rw [show A.coords p * (1 - 1) + B.coords p * 1 = B.coords p by ring]
    exact roundTo4_visual_coords B p
  · have hdom : (compute_wine_tasting_trajectory A B n).dominant_transition_axis =
        some (pyMaxBy (fun p => |B.coords p - A.coords p|) Axis.structural_tension
          [Axis.color_depth, Axis.aromatic_complexity, Axis.textural_weight,
           Axis.temporal_maturity]) := rfl
    set f : Axis → ℚ := fun p => |B.coords p - A.coords p| with hf
    rw [hdom, pyMaxBy_eq_firstMaxBy]
    obtain ⟨m, hm, hr, hmax, hlt⟩ := firstMaxBy_first_max f
      [Axis.color_depth, Axis.aromatic_complexity, Axis.textural_weight,
       Axis.temporal_maturity] Axis.structural_tension
    refine ⟨_, rfl, ?_, ?_⟩
    · intro p
      obtain ⟨hp, hget⟩ := axis_get_axisIdx p
      have := hmax (axisIdx p) hp
      rw [show ((Axis.structural_tension ::
          [Axis.color_depth, Axis.aromatic_complexity, Axis.textural_weight,
           Axis.temporal_maturity]).get ⟨axisIdx p, hp⟩) =
          WINE_PARAMETER_NAMES.get ⟨axisIdx p, hp⟩ from rfl, hget] at this
      exact this
    · intro p hpd
      have hdidx : axisIdx (firstMaxBy f Axis.structural_tension
          [Axis.color_depth, Axis.aromatic_complexity, Axis.textural_weight,
           Axis.temporal_maturity]) = m := by
        rw [hr]
        exact axisIdx_get m hm
      rw [hdidx] at hpd
      obtain ⟨hp, hget⟩ := axis_get_axisIdx p
      have := hlt (axisIdx p) hp hpd
      rw [show ((Axis.structural_tension ::
          [Axis.color_depth, Axis.aromatic_complexity, Axis.textural_weight,
           Axis.temporal_maturity]).get ⟨axisIdx p, hp⟩) =
          WINE_PARAMETER_NAMES.get ⟨axisIdx p, hp⟩ from rfl, hget] at this
      exact this

/-! ### Nearest-neighbour classification -/

theorem firstMinBy_le (x : String × ℝ) (l : List (String × ℝ)) :
    (firstMinBy x l).2 ≤ x.2 := by
  cases l with
  | nil => exact le_refl _
  | cons y ys =>
    rw [firstMinBy]
    split_ifs with h
    · exact le_refl _
    · exact le_of_lt (lt_of_not_le h)

theorem firstMinBy_mem (x : String × ℝ) (l : List (String × ℝ)) :
    firstMinBy x l = x ∨ firstMinBy x l ∈ l := by
  induction l generalizing x with
  | nil => exact Or.inl rfl
  | cons y ys ih =>
    rw [firstMinBy]
    split_ifs with h
    · exact Or.inl rfl
    · rcases ih y with h1 | h1
      · exact Or.inr (by rw [h1]; exact List.mem_cons_self y ys)
      · exact Or.inr (List.mem_cons_of_mem y h1)

theorem firstMinBy_cons_of_le (x y : String × ℝ) (ys : List (String × ℝ))
    (hxy : x.2 ≤ y.2) :
    firstMinBy x (y :: ys) = firstMinBy x ys := by
  cases ys with
  | nil => simp [firstMinBy, hxy]
  | cons z zs =>
    rw [firstMinBy, firstMinBy, firstMinBy]
    by_cases hyc : y.2 ≤ (firstMinBy z zs).2
    · rw [if_pos hyc, if_pos hxy, if_pos (le_trans hxy hyc)]
    · rw [if_neg hyc]

theorem foldl_min_eq_firstMinBy :
    ∀ (l : List (String × ℝ)) (x : String × ℝ),
      l.foldl (fun acc y => if y.2 < acc.2 then y else acc) x = firstMinBy x l := by
  intro l
  induction l with
  | nil => intro x; rfl
  | cons y ys ih =>
    intro x
    rw [List.foldl_cons]
    by_cases h : y.2 < x.2
    · rw [if_pos h, ih y, firstMinBy]
      have hx : ¬ x.2 ≤ (firstMinBy y ys).2 :=
        not_le.mpr (lt_of_le_of_lt (firstMinBy_le y ys) h)
      rw [if_neg hx]
    · rw [if_neg h, ih x]
      exact (firstMinBy_cons_of_le x y ys (le_of_not_lt h)).symm

theorem pairStep_lift (x y : String × ℝ) :
    pairStep (some x.1, some x.2) y =
      (some (if y.2 < x.2 then y else x).1, some (if y.2 < x.2 then y else x).2) := by
  by_cases h : y.2 < x.2 <;> simp [pairStep, h]

theorem foldl_pairStep_lift :
    ∀ (l : List (String × ℝ)) (x : String × ℝ),
      l.foldl pairStep (some x.1, some x.2) =
        (some (l.foldl (fun acc y => if y.2 < acc.2 then y else acc) x).1,
         some (l.foldl (fun acc y => if y.2 < acc.2 then y else acc) x).2) := by
  intro l
  induction l with
  | nil => intro x; rfl
  | cons y ys ih =>
    intro x
    rw [List.foldl_cons, List.foldl_cons, pairStep_lift]
    exact ih (if y.2 < x.2 then y else x)

theorem nearestStep_eq_pairStep (t : WineVisualType)
    (acc : Option String × Option ℝ) (v : ℝ) :
    nearestStep t acc v = pairStep acc (t.id, v) := by
  obtain ⟨a, b⟩ := acc
  cases b <;> rfl

theorem foldlM_nearest (d : WDict) (f : WineVisualType → ℝ)
    (hf : ∀ t, _euclidean_distance_wine d (dictOf t.coords) = some (f t)) :
    ∀ (l : List WineVisualType) (acc : Option String × Option ℝ),
      (l.foldlM (fun acc t =>
          (_euclidean_distance_wine d (dictOf t.coords)).map (nearestStep t acc))
        acc)
      = some (l.foldl (fun acc t => pairStep acc (t.id, f t)) acc) := by
  intro l
  induction l with
  | nil => intro acc; rfl
  | cons t ts ih =>
    intro acc
    rw [List.foldlM_cons, hf t]
    exact (ih (nearestStep t acc (f t))).trans
      (by rw [List.foldl_cons, nearestStep_eq_pairStep])

theorem foldl_types_firstMin (g : WineVisualType → ℝ) (t1 : WineVisualType)
    (rest : List WineVisualType) :
    (t1 :: rest).foldl (fun acc t => pairStep acc (t.id, g t))
        ((none : Option String), (none : Option ℝ)) =
      (some (firstMinBy (t1.id, g t1) (rest.map (fun t => (t.id, g t)))).1,
       some (firstMinBy (t1.id, g t1) (rest.map (fun t => (t.id, g t)))).2) := by
  rw [List.foldl_cons]
  rw [show pairStep ((none : Option String), (none : Option ℝ)) (t1.id, g t1) =
    (some ((t1.id, g t1)).1, some ((t1.id, g t1)).2) from rfl]
  rw [← List.foldl_map (fun t => (t.id, g t)) pairStep rest]
  rw [foldl_pairStep_lift, foldl_min_eq_firstMinBy]

/-- The nearest-type scan on any complete state dictionary, written through
the deterministic first-minimum specification. -/
theorem find_nearest_eq_firstMin (d : WDict) (f : WineVisualType → ℝ)
    (hf : ∀ t, _euclidean_distance_wine d (dictOf t.coords) = some (f t)) :
    _find_nearest_wine_visual_type d =
      some (some (firstMinBy (WineVisualType.burgundian_silk.id,
              f WineVisualType.burgundian_silk)
            ([WineVisualType.barolo_patina, WineVisualType.napa_monument,
              WineVisualType.riesling_crystal, WineVisualType.rhone_wildfire,
              WineVisualType.champagne_effervescence,
              WineVisualType.sauternes_gold].map (fun t => (t.id, f t)))).1,
        some (firstMinBy (WineVisualType.burgundian_silk.id,
              f WineVisualType.burgundian_silk)
            ([WineVisualType.barolo_patina, WineVisualType.napa_monument,
              WineVisualType.riesling_crystal, WineVisualType.rhone_wildfire,
              WineVisualType.champagne_effervescence,
              WineVisualType.sauternes_gold].map (fun t => (t.id, f t)))).2) := by
  rw [_find_nearest_wine_visual_type, foldlM_nearest d f hf]
  rw [show WINE_VISUAL_TYPES = WineVisualType.burgundian_silk ::
    [WineVisualType.barolo_patina, WineVisualType.napa_monument,
     WineVisualType.riesling_crystal, WineVisualType.rhone_wildfire,
     WineVisualType.champagne_effervescence,
     WineVisualType.sauternes_gold] from rfl]
  rw [foldl_types_firstMin]

/-- C9: the nearest-archetype classification is a total deterministic
function of the input state: on every complete state it equals the explicit
first-minimum specification `nearestSpec` (minimal distance, ties broken in
favour of the archetype listed first in the registry's fixed insertion
order), so repeated runs on the same input and registry always return the
same archetype id — including inputs exactly equidistant from several
archetypes. -/
theorem nearest_classification_deterministic (s : Axis → ℚ) :
    _find_nearest_wine_visual_type (dictOf s) =
      (nearestSpec s).map
        (fun e => ((some e.1 : Option String), (some e.2 : Option ℝ))) := by
  rw [find_nearest_eq_firstMin (dictOf s) (fun t => edist s t.coords)
    (fun t => euclidean_distance_dictOf s t.coords)]
  rw [nearestSpec]
  rw [show WINE_VISUAL_TYPES.map (fun t => (t.id, edist s t.coords)) =
    (WineVisualType.burgundian_silk.id, edist s WineVisualType.burgundian_silk.coords) ::
      [WineVisualType.barolo_patina, WineVisualType.napa_monument,
       WineVisualType.riesling_crystal, WineVisualType.rhone_wildfire,
       WineVisualType.champagne_effervescence,
       WineVisualType.sauternes_gold].map (fun t => (t.id, edist s t.coords)) from rfl]
  rfl

/-! ### Caller-supplied states: validation behaviour -/

theorem lookupVisualType_id (t : WineVisualType) : lookupVisualType t.id = some t := by
  cases t <;> rfl

theorem mapM_option_eq_none {α β : Type} (g : α → Option β) (l : List α) (a : α)
    (ha : a ∈ l) (hg : g a = none) : l.mapM g = none := by
  induction l with
  | nil => cases ha
  | cons x xs ih =>
    rw [List.mapM_cons]
    rcases List.mem_cons.mp ha with rfl | hmem
    · rw [hg]; rfl
    · simp only [ih hmem]
      cases hx : g x <;> rfl

theorem sqDiffTerms?_missing (d : WDict) (c : Axis → ℚ) (p : Axis)
    (hp : dget? d p = none) : sqDiffTerms? d (dictOf c) = none := by
  rw [sqDiffTerms?]
  apply mapM_option_eq_none _ _ p
  · cases p <;> simp [WINE_PARAMETER_NAMES]
  · rw [hp]; rfl

theorem find_nearest_missing (d : WDict) (p : Axis) (hp : dget? d p = none) :
    _find_nearest_wine_visual_type d = none := by
  have h1 : _euclidean_distance_wine d
      (dictOf WineVisualType.burgundian_silk.coords) = none := by
    rw [_euclidean_distance_wine, sqDiffTerms?_missing d _ p hp]; rfl
  rw [_find_nearest_wine_visual_type,
    show WINE_VISUAL_TYPES = WineVisualType.burgundian_silk ::
      [WineVisualType.barolo_patina, WineVisualType.napa_monument,
       WineVisualType.riesling_crystal, WineVisualType.rhone_wildfire,
       WineVisualType.champagne_effervescence,
       WineVisualType.sauternes_gold] from rfl,
    List.foldlM_cons, h1]
  rfl

theorem extract_state_path (d : WDict) (hne : d ≠ []) (k : ℚ) :
    extract_wine_tasting_visual_vocabulary (some d) "" k =
      match _find_nearest_wine_visual_type d with
      | none => .exn "KeyError"
      | some (none, _) => .exn "KeyError"
      | some (some nearest_type, distOpt) =>
          match lookupVisualType nearest_type with
          | none => .exn "KeyError"
          | some t =>
              .ok { nearest_type := nearest_type
                  , distance := distOpt.map (roundToR 4)
                  , keywords := t.keywords
                  , weighted_keywords := t.keywords.enum.map (fun ik =>
                      (ik.2, roundTo 2 (k * (1 - 0.05 * (ik.1 : ℚ)))))
                  , input_state := fun p => roundTo 4 ((dget? d p).getD 0) } := by
  cases d with
  | nil => exact absurd rfl hne
  | cons x xs => rfl

theorem extract_missing_axis_crash (d : WDict) (k : ℚ) (p : Axis)
    (hp : dget? d p = none) (hne : d ≠ []) :
    extract_wine_tasting_visual_vocabulary (some d) "" k = .exn "KeyError" := by
  rw [extract_state_path d hne k, find_nearest_missing d p hp]

theorem euclidean_distance_total_left (d : WDict) (h : ∀ q, (dget? d q).isSome)
    (c : Axis → ℚ) :
    _euclidean_distance_wine d (dictOf c) =
      some (edist (fun q => (dget? d q).getD 0) c) := by
  obtain ⟨v1, h1⟩ := Option.isSome_iff_exists.mp (h Axis.structural_tension)
  obtain ⟨v2, h2⟩ := Option.isSome_iff_exists.mp (h Axis.color_depth)
  obtain ⟨v3, h3⟩ := Option.isSome_iff_exists.mp (h Axis.aromatic_complexity)
  obtain ⟨v4, h4⟩ := Option.isSome_iff_exists.mp (h Axis.textural_weight)
  obtain ⟨v5, h5⟩ := Option.isSome_iff_exists.mp (h Axis.temporal_maturity)
  simp [_euclidean_distance_wine, sqDiffTerms?, edist, WINE_PARAMETER_NAMES,
    List.mapM.loop, dget?_dictOf, h1, h2, h3, h4, h5]

theorem extract_total_state_ok (d : WDict) (hne : d ≠ [])
    (h : ∀ q, (dget? d q).isSome) (k : ℚ) :
    ∃ pay, extract_wine_tasting_visual_vocabulary (some d) "" k = .ok pay
      ∧ pay.input_state = fun p => roundTo 4 ((dget? d p).getD 0) := by
  have hf : ∀ t : WineVisualType, _euclidean_distance_wine d (dictOf t.coords) =
      some (edist (fun q => (dget? d q).getD 0) t.coords) :=
    fun t => euclidean_distance_total_left d h t.coords
  have hnear := find_nearest_eq_firstMin d
    (fun t => edist (fun q => (dget? d q).getD 0) t.coords) hf
  have hmem := firstMinBy_mem
    (WineVisualType.burgundian_silk.id,
      edist (fun q => (dget? d q).getD 0) WineVisualType.burgundian_silk.coords)
    ([WineVisualType.barolo_patina, WineVisualType.napa_monument,
      WineVisualType.riesling_crystal, WineVisualType.rhone_wildfire,
      WineVisualType.champagne_effervescence,
      WineVisualType.sauternes_gold].map
      (fun t => (t.id, edist (fun q => (dget? d q).getD 0) t.coords)))
  have hid : ∃ t : WineVisualType,
      (firstMinBy
        (WineVisualType.burgundian_silk.id,
          edist (fun q => (dget? d q).getD 0) WineVisualType.burgundian_silk.coords)
        ([WineVisualType.barolo_patina, WineVisualType.napa_monument,
          WineVisualType.riesling_crystal, WineVisualType.rhone_wildfire,
          WineVisualType.champagne_effervescence,
          WineVisualType.sauternes_gold].map
          (fun t => (t.id, edist (fun q => (dget? d q).getD 0) t.coords)))).1
        = t.id := by
    rcases hmem with h1 | h1
    · exact ⟨.burgundian_silk, by rw [h1]⟩
    · simp only [List.mem_map] at h1
      obtain ⟨t, -, h2⟩ := h1
      exact ⟨t, by rw [← h2]⟩
  obtain ⟨t, ht⟩ := hid
  rw [extract_state_path d hne k, hnear]
  simp only [ht, lookupVisualType_id t]
  exact ⟨_, rfl, rfl⟩

/-- C6 as amended: the engine performs no validation of caller-supplied
states.  A non-empty state dict missing any declared axis makes the
vocabulary extraction raise an unhandled `KeyError` — not return a
structured ValidationError value; a state dict carrying all five axes is
accepted and processed successfully whatever its values (out-of-range
values included, neither rejected nor clamped: the echoed `input_state` is
the raw input, rounded to 4 places for display only). -/
theorem caller_state_no_validation (d : WDict) (k : ℚ) :
    ((∃ p, dget? d p = none) → d ≠ [] →
      extract_wine_tasting_visual_vocabulary (some d) "" k = .exn "KeyError")
    ∧ ((∀ p, (dget? d p).isSome) → d ≠ [] →
      ∃ pay, extract_wine_tasting_visual_vocabulary (some d) "" k = .ok pay
        ∧ pay.input_state = fun p => roundTo 4 ((dget? d p).getD 0)) := by
  constructor
  · rintro ⟨p, hp⟩ hne
    exact extract_missing_axis_crash d k p hp hne
  · intro h hne
    exact extract_total_state_ok d hne h k

/-- C6 counterexample: the state `{structural_tension: 0.5}` is missing
four declared axes, and the vocabulary extraction on it raises a `KeyError`
escaping the tool instead of returning a ValidationError value; the
complete state with every axis at the out-of-range value `2` is processed
successfully instead of being rejected. -/
theorem caller_state_no_validation_counterexample :
    extract_wine_tasting_visual_vocabulary
        (some [(Axis.structural_tension, 1/2)]) "" 1 = .exn "KeyError"
    ∧ (extract_wine_tasting_visual_vocabulary
        (some (dictOf (fun _ => 2))) "" 1).isOk = true := by
  constructor
  · exact extract_missing_axis_crash _ 1 Axis.color_depth rfl (by simp)
  · obtain ⟨pay, hp, -⟩ := extract_total_state_ok (dictOf (fun _ => 2))
      (by simp [dictOf, WINE_PARAMETER_NAMES])
      (fun q => by rw [dget?_dictOf]; rfl) 1
    rw [hp]; rfl

/-! ### Unknown identifiers -/

/-- C8 as amended: an unknown identifier makes the lookup-based tools return
a structured error value (never an exception) carrying the list of currently
valid ids; the preset tool's error message also carries the attempted id,
but `compute_wine_tasting_distance` answers with the fixed generic message
`"Unknown wine type(s)"` that does not mention the attempted ids. -/
theorem unknown_id_structured_errors (s s1 s2 : String) :
    (lookupPreset s = none →
      apply_wine_tasting_rhythmic_preset s =
        .err { error := "Unknown preset " ++ squoted s, available := presetIds })
    ∧ ((lookupVisualType s1 = none ∨ lookupVisualType s2 = none) →
      compute_wine_tasting_distance s1 s2 =
        .err { error := "Unknown wine type(s)", available := visualTypeIds }) := by
  constructor
  · intro h
    rw [apply_wine_tasting_rhythmic_preset, h]
  · intro h
    rw [compute_wine_tasting_distance]
    rcases h with h | h
    · rw [h]
    · rw [h]
      cases hl : lookupVisualType s1 <;> rfl

/-- C8 counterexample: the unknown-id error of
`compute_wine_tasting_distance` is the same value for different attempted
ids — its message is the fixed string `"Unknown wine type(s)"` — so the
structured error does not carry the attempted id, contrary to the claim. -/
theorem distance_error_carries_no_id :
    compute_wine_tasting_distance "mystery_alpha" "mystery_beta" =
      compute_wine_tasting_distance "mystery_gamma" "mystery_delta"
    ∧ compute_wine_tasting_distance "mystery_alpha" "mystery_beta" =
      .err { error := "Unknown wine type(s)", available := visualTypeIds } := by
  have h1 : lookupVisualType "mystery_alpha" = none := rfl
  have h3 : lookupVisualType "mystery_gamma" = none := rfl
  constructor
  · rw [compute_wine_tasting_distance, compute_wine_tasting_distance, h1, h3]
  · rw [compute_wine_tasting_distance, h1]

/-! ### Coordinate-resolution precedence -/

/-- C10: when both a (non-empty) state dict and a registered wine-type id
are supplied, `extract_wine_tasting_visual_vocabulary` resolves the
coordinates from the id — its result is the same as with no state at all —
whereas `generate_wine_tasting_prompt` resolves them from the custom state,
returning it unchanged exactly as when no id is supplied. -/
theorem vocabulary_precedence_asymmetry (t : WineVisualType) (d : WDict)
    (hd : d ≠ []) (k : ℚ) :
    extract_wine_tasting_visual_vocabulary (some d) t.id k =
      extract_wine_tasting_visual_vocabulary none t.id k
    ∧ generate_wine_tasting_prompt_resolve t.id (some d) = .ok d
    ∧ generate_wine_tasting_prompt_resolve t.id (some d) =
      generate_wine_tasting_prompt_resolve "" (some d) := by
  refine ⟨by cases t <;> rfl, ?_, ?_⟩
  · cases d with
    | nil => exact absurd rfl hd
    | cons x xs => rfl
  · cases d with
    | nil => exact absurd rfl hd
    | cons x xs => rfl

/-! ### Witnesses -/

/-- Witness for C1 at a concrete trajectory. -/
theorem trajectory_sampling_witness :
    (compute_wine_tasting_trajectory WineVisualType.riesling_crystal
      WineVisualType.napa_monument 20).trajectory.length = 20 + 1 :=
  (trajectory_sampling_spec WineVisualType.riesling_crystal
    WineVisualType.napa_monument 20 (by norm_num)).1

/-- Witness for C4 at a concrete oscillation. -/
theorem oscillation_length_and_bounds_witness :
    ∃ l, _generate_wine_oscillation 12 3 "sinusoidal" = .ok l ∧ l.length = 12
      ∧ ∀ x ∈ l, 0 ≤ x ∧ x ≤ 1 :=
  (oscillation_length_and_bounds 12 3 (by norm_num)).1

/-- Witness for C10 at a concrete state dict. -/
theorem vocabulary_precedence_witness :
    generate_wine_tasting_prompt_resolve WineVisualType.burgundian_silk.id
        (some [(Axis.color_depth, 1)]) = .ok [(Axis.color_depth, 1)] :=
  (vocabulary_precedence_asymmetry WineVisualType.burgundian_silk
    [(Axis.color_depth, 1)] (by simp) 1).2.1

end WineMCP
